import Mathlib

/-!
Shallow embedding of the reporting subsystem of pylinkvalidator
(`pylinkvalidator/reporter.py`).

Conventions of the embedding:
- Python dicts with insertion order are modelled as association lists.
- Elapsed times are modelled as whole seconds (`Nat`); the Python
  `"{:.2f}"` formatting of a whole number of seconds appends `".00"`.
- Side effects (writes to sinks, console printing, closing the output
  file, SMTP commands) are modelled as an explicit event trace; Python
  exceptions and `sys.exit` are modelled by an `Outcome` value.
- Exogenous failures that real I/O can produce (a failing file write, a
  failing close, a failing SMTP transport) are modelled by a `Faults`
  oracle threaded through the functions.
-/

namespace PyLink

/-! ## Text utilities (`truncate`, reporter.py lines 346-355) -/

/-- Models Python `"{:.2f}".format(t)` for times modelled as whole seconds. -/
def format2f (n : Nat) : String := toString n ++ ".00"

/-- The character class of the regex `\s` (reporter.py line 29) restricted to
ASCII: space, tab, newline, carriage return, vertical tab, form feed. -/
def isPySpace (c : Char) : Bool :=
  c = ' ' || c = '\t' || c = '\n' || c = '\r' || c = '\x0b' || c = '\x0c'

/-- Models `WHITESPACES.sub(" ", value)`: every maximal run of whitespace
characters is replaced by a single space. -/
def collapseWs : List Char → List Char
  | [] => []
  | [c] => if isPySpace c then [' '] else [c]
  | c1 :: c2 :: rest =>
    if isPySpace c1 && isPySpace c2 then collapseWs (c2 :: rest)
    else (if isPySpace c1 then ' ' else c1) :: collapseWs (c2 :: rest)

/-- Models Python `str.strip()` over the modelled whitespace class. -/
def pyStrip (l : List Char) : List Char :=
  ((l.dropWhile isPySpace).reverse.dropWhile isPySpace).reverse

/-- Models Python slicing `l[:i]` for a possibly negative bound `i`. -/
def pySlice (l : List Char) (i : Int) : List Char :=
  if 0 ≤ i then l.take i.toNat else l.take (l.length - (-i).toNat)

/-- The whitespace normalization performed by `truncate` (lines 348-350):
replace `\n` by a space, delete `\r`, replace `\t` by a space, strip, then
collapse whitespace runs to one space. -/
def normalizeWs (l : List Char) : List Char :=
  collapseWs (pyStrip
    (((l.map (fun c => if c = '\n' then ' ' else c)).filter
        (fun c => c ≠ '\r')).map
      (fun c => if c = '\t' then ' ' else c)))

/-- `truncate` (reporter.py lines 346-355): normalize whitespace, then if the
result is longer than `size`, keep `value[:size-3]` and append `"..."`. -/
def truncate (value : List Char) (size : Nat) : List Char :=
  let v := normalizeWs value
  if size < v.length then pySlice v ((size : Int) - 3) ++ "...".data
  else v

/-! ## Data model

The crawl result consumed by the reporter is produced in
`pylinkvalidator/models.py` (not part of the reporting source file); the
reporter only reads attributes from it.  Those attributes are modelled here
as plain data fields, faithful to how `reporter.py` consumes them. -/

/-- A parsed URL as produced by `urlparse.urlsplit` and consumed by the
reporter via `.geturl()`, `.hostname`, `.netloc`, `.path`, `.port`,
`.query`, `.scheme`, `.fragment`. -/
structure SplitResult where
  scheme : String
  netloc : String
  path : String
  query : String
  fragment : String
  hostname : String
  port : Option Nat
deriving DecidableEq

/-- Models `SplitResult.geturl()`: reassembles the URL from its parts. -/
def SplitResult.geturl (u : SplitResult) : String :=
  u.scheme ++ "://" ++ u.netloc ++ u.path ++
  (if u.query = "" then "" else "?" ++ u.query) ++
  (if u.fragment = "" then "" else "#" ++ u.fragment)

/-- A link reference (`source` in reporter.py): the origin page, the raw
markup snippet, and the literal target string. -/
structure PageSource where
  origin : SplitResult
  origin_str : String
  target : String
deriving DecidableEq

/-- One crawled page (`resource` in reporter.py).  `status_message` and
`content_messages` model the values of `page.get_status_message()` and
`page.get_content_messages()` (methods of models.py, read as data here);
`exception` models `str(resource.exception)` when an exception was captured. -/
structure Page where
  url_split : SplitResult
  status : Option Nat
  response_time : Nat
  process_time : Nat
  is_local : Bool
  is_html : Bool
  is_ok : Bool
  is_timeout : Bool
  exception : Option String
  sources : List PageSource
  status_message : String
  content_messages : List String
deriving DecidableEq

/-- The crawl result aggregate (`site` in reporter.py).  `pages` and
`error_pages` model the insertion-ordered dicts keyed by a `SplitResult`;
`multi_pages` / `multi_error_pages` model the per-domain dicts used in
multi-site mode.  `avg_ok` models whether `site.get_average_response_time()`
and `site.get_average_process_time()` succeed (they can raise, e.g. on an
empty crawl; reporter.py catches that locally). -/
structure Site where
  start_url_splits : List SplitResult
  pages : List (SplitResult × Page)
  error_pages : List (SplitResult × Page)
  multi_pages : List (String × List (SplitResult × Page))
  multi_error_pages : List (String × List (SplitResult × Page))
  is_ok : Bool
  avg_ok : Bool
  avg_response_time : Nat
  avg_process_time : Nat
deriving DecidableEq

/-- The output format constants `FORMAT_PLAIN`, `FORMAT_JSON`, `FORMAT_JUNIT`. -/
inductive ReportFormat
  | plain
  | json
  | junit
deriving DecidableEq

/-- The report scope constants `REPORT_TYPE_ALL`, `REPORT_TYPE_ERRORS`. -/
inductive ReportType
  | all
  | errors
deriving DecidableEq

/-- The configuration attributes read by the reporter (`config.options`).
`output` and `smtp` are `none` when not configured (Python falsiness of the
unset option); `address` is the raw comma-separated recipient string, with
`""` modelling the missing/empty value. -/
structure Options where
  output : Option String
  smtp : Option String
  console : Bool
  format : ReportFormat
  report_type : ReportType
  multi : Bool
  show_source : Bool
  address : String
  port : Nat
  tls : Bool
  smtp_username : Option String
  smtp_password : Option String
  subject : Option String
  from_address : Option String
deriving DecidableEq

/-! ## Effects: sinks, events, outcomes, fault oracle -/

/-- The three kinds of output destinations assembled in `report`
(lines 47-60): the opened output file, the `StringIO` email buffer, and
`sys.stdout`. -/
inductive Sink
  | file
  | email
  | console
deriving DecidableEq

/-- Observable effects of the reporter.  `write s text` is a write of `text`
to sink `s` (writes performed via `print` include the trailing newline);
`printExc` is a `traceback.print_exc()` diagnostic dump; `logException` is
`logger.exception(...)`; `closeFile` is the attempt to close the output
file; `sendEmailCalled body` marks the `send_email` invocation with the
email buffer contents; the `smtp*` events model the SMTP session. -/
inductive Event
  | write (s : Sink) (text : String)
  | printExc
  | logException
  | closeFile
  | sendEmailCalled (body : String)
  | smtpConnect (host : String) (port : Nat)
  | smtpStartTLS
  | smtpLogin (username : String)
  | smtpSendmail (from_address : String) (addresses : List String)
      (message : String)
  | smtpQuit
deriving DecidableEq

/-- How a modelled call terminates: normal return, a Python exception
propagating out, or `sys.exit(code)`. -/
inductive Outcome
  | normal
  | raised
  | exited (code : Nat)
deriving DecidableEq

/-- Exogenous failure oracle: whether a write to the opened output file
raises, whether closing it raises, and whether the SMTP transport raises. -/
structure Faults where
  fileWriteFails : Bool
  closeFails : Bool
  smtpFails : Bool
deriving DecidableEq

/-! ## Shared renderer pieces -/

/-- The global status label and error clause.  This block is repeated
verbatim in `_write_json_report` (lines 129-134),
`_write_plain_text_report_multi` (198-203), `_write_plain_text_report_single`
(248-253) and `print_summary` (289-294); it is factored into one definition
here. -/
def statusSummary (site : Site) : String × String :=
  if !site.is_ok then
    ("ERROR", "with " ++ toString site.error_pages.length ++ " error(s) ")
  else
    ("SUCCESS", "")

/-- `",".join(geturl of each start url)` (lines 123-124, 242-243). -/
def startUrlsJoined (site : Site) : String :=
  String.intercalate "," (site.start_url_splits.map SplitResult.geturl)

/-- The single-site global summary line (lines 259-260, 296-297). -/
def summaryLine (site : Site) (total_time : Nat) : String :=
  (statusSummary site).1 ++ " Crawled " ++ toString site.pages.length ++
  " urls " ++ (statusSummary site).2 ++ "in " ++ format2f total_time ++
  " seconds"

/-- The multi-site global summary line (lines 209-214). -/
def multiSummaryLine (site : Site) (total_time : Nat) : String :=
  (statusSummary site).1 ++ " Crawled " ++ toString site.pages.length ++
  " urls " ++ (statusSummary site).2 ++ "from " ++
  toString site.start_url_splits.length ++ " sites in " ++
  format2f total_time ++ " seconds"

/-- The average response time line (lines 216-217, 263-264). -/
def avgResponseLine (site : Site) : String :=
  "  average response time: " ++ format2f site.avg_response_time ++ " seconds"

/-- The average process time line (lines 219-220, 266-267). -/
def avgProcessLine (site : Site) : String :=
  "  average process time: " ++ format2f site.avg_process_time ++ " seconds"

/-- The scope filter: `site.error_pages` under `REPORT_TYPE_ERRORS`,
`site.pages` under `REPORT_TYPE_ALL` (lines 155-158, 275-278, 301-304). -/
def selectReportPages (report_type : ReportType) (site : Site) :
    List (SplitResult × Page) :=
  match report_type with
  | .errors => site.error_pages
  | .all => site.pages

/-- The multi-site scope filter: `site.multi_error_pages` or
`site.multi_pages` (lines 224-227). -/
def selectMultiPages (report_type : ReportType) (site : Site) :
    List (String × List (SplitResult × Page)) :=
  match report_type with
  | .errors => site.multi_error_pages
  | .all => site.multi_pages

/-- `" " * indent`. -/
def indentStr (n : Nat) : String := String.mk (List.replicate n ' ')

/-- The per-page block of lines shared by `print_summary` (lines 307-318)
and `_print_details` (lines 321-337): a status line, the content messages,
and for each link reference a from/target line plus, when `show_source` is
set, the raw snippet line. -/
def pageDetailLines (options : Options) (indent : Nat) (page : Page) :
    List String :=
  let ind := indentStr indent
  ("\n" ++ ind ++ page.status_message ++ ": " ++ page.url_split.geturl) ::
  (page.content_messages.map (fun m => ind ++ "  " ++ m) ++
   page.sources.flatMap (fun src =>
     (ind ++ "  from " ++ src.origin.geturl ++ " target=" ++ src.target) ::
     (if options.show_source then [ind ++ "    " ++ src.origin_str] else [])))

/-- `_print_details` / the page loop of `print_summary`, as a list of lines
over `pages.values()`. -/
def detailLines (options : Options) (indent : Nat)
    (pages : List (SplitResult × Page)) : List String :=
  pages.flatMap (fun p => pageDetailLines options indent p.2)

/-- `print_summary` (lines 285-318): the always-console summary block, as a
trace of console writes (each `print` appends a newline). -/
def printSummaryEvents (site : Site) (options : Options) (total_time : Nat) :
    List Event :=
  Event.write .console (summaryLine site total_time ++ "\n") ::
  (detailLines options 2 (selectReportPages options.report_type site)).map
    (fun ln => Event.write .console (ln ++ "\n"))

/-! ## Sink resolution and fan-out -/

/-- Sink resolution in `report` (lines 47-60): the output file when an
output path is configured, then the email buffer when SMTP is configured,
then the console when requested or when no other sink exists. -/
def resolveSinks (options : Options) : List Sink :=
  let files :=
    (if options.output.isSome then [Sink.file] else []) ++
    (if options.smtp.isSome then [Sink.email] else [])
  if options.console || files.isEmpty then files ++ [Sink.console] else files

/-- `oprint` (lines 340-343): print one message to every sink, in sink-list
order; `print` appends a newline. -/
def oprintEvents (sinks : List Sink) (message : String) : List Event :=
  sinks.map (fun s => Event.write s (message ++ "\n"))

/-- A sequence of `oprint` calls, one per line. -/
def fanout (sinks : List Sink) (lines : List String) : List Event :=
  lines.flatMap (oprintEvents sinks)

/-! ## Plain-text renderer (lines 80-84, 194-238, 241-282) -/

/-- `_write_plain_text_report_single` (lines 241-282).  The try block wraps
the average computations and the three summary `oprint`s: when the averages
raise, those lines are skipped and `print_exc` runs; the page details are
printed outside the try block. -/
def writePlainTextReportSingle (site : Site) (options : Options)
    (sinks : List Sink) (total_time : Nat) : List Event :=
  (if site.avg_ok then
     fanout sinks
       [summaryLine site total_time, avgResponseLine site, avgProcessLine site]
   else [Event.printExc]) ++
  (let pages := selectReportPages options.report_type site
   if pages.isEmpty then []
   else
     fanout sinks
       (("\n  Start URL(s): " ++ startUrlsJoined site) ::
        detailLines options 2 pages))

/-- `_write_plain_text_report_multi` (lines 194-238).  The try block wraps
everything after the status computation, including the per-domain loop:
when the averages raise, nothing is printed except the `print_exc` dump. -/
def writePlainTextReportMulti (site : Site) (options : Options)
    (sinks : List Sink) (total_time : Nat) : List Event :=
  if site.avg_ok then
    fanout sinks
      [multiSummaryLine site total_time, avgResponseLine site,
       avgProcessLine site] ++
    (selectMultiPages options.report_type site).flatMap (fun dp =>
      if dp.2.isEmpty then []
      else
        fanout sinks
          (("\n\n  Start Domain: " ++ dp.1) :: detailLines options 4 dp.2))
  else [Event.printExc]

/-- `_write_plain_text_report` (lines 80-84). -/
def writePlainTextReport (site : Site) (options : Options)
    (sinks : List Sink) (total_time : Nat) : List Event :=
  if options.multi then writePlainTextReportMulti site options sinks total_time
  else writePlainTextReportSingle site options sinks total_time

/-! ## Structured-data (JSON) renderer (lines 122-191) -/

/-- Models Python `str(status)`: `"None"` when the fetch produced no status. -/
def statusRepr : Option Nat → String
  | none => "None"
  | some n => toString n

/-- One record of the `pages` array (lines 163-182). -/
structure PageDetails where
  link : String
  fragment : String
  hostname : String
  netloc : String
  is_local : Bool
  is_html : Bool
  is_ok : Bool
  is_timeout : Bool
  process_time : Nat
  response_time : Nat
  status : Option Nat
  path : String
  port : Option Nat
  query : String
  scheme : String
  origins : List String
  sources : List String
  targets : List String
deriving DecidableEq

/-- Builds one `pages` record from a `(results, resource)` dict item
(lines 162-183). -/
def pageDetails (entry : SplitResult × Page) : PageDetails :=
  let results := entry.1
  let resource := entry.2
  { link := resource.url_split.geturl
    fragment := results.fragment
    hostname := results.hostname
    netloc := results.netloc
    is_local := resource.is_local
    is_html := resource.is_html
    is_ok := resource.is_ok
    is_timeout := resource.is_timeout
    process_time := resource.process_time
    response_time := resource.response_time
    status := resource.status
    path := results.path
    port := results.port
    query := results.query
    scheme := results.scheme
    origins := resource.sources.map (fun s => s.origin.geturl)
    sources := resource.sources.map (fun s => s.origin_str)
    targets := resource.sources.map (fun s => s.target) }

/-- The `res_pages` array: one record per page selected by the scope filter
(lines 153-183). -/
def jsonResPages (report_type : ReportType) (site : Site) : List PageDetails :=
  (selectReportPages report_type site).map pageDetails

/-- The `meta` block (lines 126-151).  The average fields are present only
when the average computations succeed; their failure is caught locally with
a `print_exc` dump. -/
structure JsonMeta where
  total_urls : Nat
  total_errors : Nat
  total_time : Nat
  start_urls : String
  global_status : String
  error_summary : String
  avg_times : Option (Nat × Nat)
deriving DecidableEq

/-- Builds the `meta` block from the crawl result. -/
def jsonMeta (site : Site) (total_time : Nat) : JsonMeta :=
  { total_urls := site.pages.length
    total_errors := site.error_pages.length
    total_time := total_time
    start_urls := startUrlsJoined site
    global_status := (statusSummary site).1
    error_summary := (statusSummary site).2
    avg_times :=
      if site.avg_ok then some (site.avg_response_time, site.avg_process_time)
      else none }

/-- JSON string literal (escaping not modelled; report fields contain no
quotes in the modelled inputs). -/
def jsonStr (s : String) : String := "\"" ++ s ++ "\""

/-- JSON rendering of an optional number (`null` for `None`). -/
def jsonNatOpt : Option Nat → String
  | none => "null"
  | some n => toString n

/-- JSON rendering of a boolean. -/
def jsonBool : Bool → String
  | true => "true"
  | false => "false"

/-- JSON array of pre-rendered items. -/
def jsonArr (items : List String) : String :=
  "[" ++ String.intercalate ", " items ++ "]"

/-- JSON object from pre-rendered key/value pairs (keys are listed in sorted
order at each call site, modelling `sort_keys=True`; the `indent=4` layout is
not reproduced). -/
def jsonObj (fields : List (String × String)) : String :=
  "\x7b" ++
  String.intercalate ", "
    (fields.map (fun kv => jsonStr kv.1 ++ ": " ++ kv.2)) ++
  "\x7d"

/-- Serialization of one `pages` record, keys sorted. -/
def pageDetailsJson (d : PageDetails) : String :=
  jsonObj
    [("fragment", jsonStr d.fragment),
     ("hostname", jsonStr d.hostname),
     ("is_html", jsonBool d.is_html),
     ("is_local", jsonBool d.is_local),
     ("is_ok", jsonBool d.is_ok),
     ("is_timeout", jsonBool d.is_timeout),
     ("link", jsonStr d.link),
     ("netloc", jsonStr d.netloc),
     ("origins", jsonArr (d.origins.map jsonStr)),
     ("path", jsonStr d.path),
     ("port", jsonNatOpt d.port),
     ("process_time", toString d.process_time),
     ("query", jsonStr d.query),
     ("response_time", toString d.response_time),
     ("scheme", jsonStr d.scheme),
     ("sources", jsonArr (d.sources.map jsonStr)),
     ("status", jsonNatOpt d.status),
     ("targets", jsonArr (d.targets.map jsonStr))]

/-- Serialization of the `meta` block, keys sorted. -/
def jsonMetaJson (m : JsonMeta) : String :=
  jsonObj
    ((match m.avg_times with
      | some ap =>
        [("avg_process_time", toString ap.2),
         ("avg_response_time", toString ap.1)]
      | none => []) ++
     [("error_summary", jsonStr m.error_summary),
      ("global_status", jsonStr m.global_status),
      ("start_urls", jsonStr m.start_urls),
      ("total_errors", toString m.total_errors),
      ("total_time", toString m.total_time),
      ("total_urls", toString m.total_urls)])

/-- The full document written by `_write_json_report` (lines 185-190),
modelling `json.dumps(res, sort_keys=True, ...)`. -/
def jsonText (site : Site) (options : Options) (total_time : Nat) : String :=
  jsonObj
    [("meta", jsonMetaJson (jsonMeta site total_time)),
     ("pages",
      jsonArr ((jsonResPages options.report_type site).map pageDetailsJson))]

/-! ## Test-report (JUnit) renderer (lines 87-119) -/

/-- One `junit_xml.TestCase` as constructed by `_write_junit_report`:
name, classname, elapsed time, optional stdout, optional stderr, status,
and the failure entries added by `add_failure_info` as
(message, failure_type) pairs. -/
structure TestCase where
  name : String
  classname : String
  elapsed_sec : Nat
  stdout : Option String
  stderr : Option String
  status : String
  failures : List (String × String)
deriving DecidableEq

/-- The test case built for one `(results, resource)` dict item
(lines 91-116): a passed case when the status is exactly 200 (its stdout
carries the status), otherwise a failed case whose stderr lists the origin
URLs and which carries one failure entry. -/
def junitTestCase (entry : SplitResult × Page) : TestCase :=
  let results := entry.1
  let resource := entry.2
  let origins := resource.sources.map (fun s => s.origin.geturl)
  if resource.status = some 200 then
    { name := resource.url_split.geturl
      classname := results.hostname
      elapsed_sec := resource.response_time
      stdout := some (statusRepr resource.status)
      stderr := none
      status := "passed"
      failures := [] }
  else
    { name := resource.url_split.geturl
      classname := results.hostname
      elapsed_sec := resource.response_time
      stdout := none
      stderr := some ("Link found on:\n" ++ String.intercalate "\n" origins)
      status := "failed"
      failures :=
        [(match resource.exception with
          | some e => e
          | none => "Expected 200 OK but got " ++ statusRepr resource.status,
          "UnexpectedStatusCode")] }

/-- The test-case list: one case per item of `site.pages`, the scope filter
is not consulted (line 88). -/
def junitTestCases (site : Site) : List TestCase :=
  site.pages.map junitTestCase

/-- A loose model of `TestSuite.to_xml_string` from the external `junit_xml`
library (the claims depend only on the `TestCase` structure, not on the XML
text). -/
def testCaseXml (tc : TestCase) : String :=
  "<testcase name=" ++ jsonStr tc.name ++ " classname=" ++
  jsonStr tc.classname ++ " status=" ++ jsonStr tc.status ++ ">" ++
  String.intercalate ""
    (tc.failures.map (fun f =>
      "<failure type=" ++ jsonStr f.2 ++ " message=" ++ jsonStr f.1 ++
      "/>")) ++
  (match tc.stdout with
   | some s => "<system-out>" ++ s ++ "</system-out>"
   | none => "") ++
  (match tc.stderr with
   | some s => "<system-err>" ++ s ++ "</system-err>"
   | none => "") ++
  "</testcase>"

/-- The document written by `_write_junit_report` (lines 117-118). -/
def junitXmlText (site : Site) : String :=
  "<testsuite name=\"pylinkvalidator test suite\">" ++
  String.intercalate "" ((junitTestCases site).map testCaseXml) ++
  "</testsuite>"

/-! ## Orchestration (`report`, lines 45-77), close (36-42), mail (358-397) -/

/-- `output_file.write(text)`.  When no output path was configured,
`output_file` is `None` and the attribute access raises (`fileOpened =
false`); a true `fileWriteFails` fault models an I/O error.  Returns the
events and whether the write raised. -/
def writeToOutputFile (fileOpened : Bool) (faults : Faults) (text : String) :
    List Event × Bool :=
  if fileOpened then
    if faults.fileWriteFails then ([], true)
    else ([Event.write .file text], false)
  else ([], true)

/-- `_write_json_report` (lines 122-191): the locally caught average
failure (`print_exc`), the single document write to the output file, then
`print_summary` — which runs only when the write did not raise. -/
def writeJsonReport (site : Site) (options : Options) (fileOpened : Bool)
    (faults : Faults) (total_time : Nat) : List Event × Bool :=
  let pre := if site.avg_ok then [] else [Event.printExc]
  let wr := writeToOutputFile fileOpened faults (jsonText site options total_time)
  if wr.2 then (pre ++ wr.1, true)
  else (pre ++ wr.1 ++ printSummaryEvents site options total_time, false)

/-- `_write_junit_report` (lines 87-119): the document write to the output
file, then `print_summary` when the write did not raise. -/
def writeJunitReport (site : Site) (options : Options) (fileOpened : Bool)
    (faults : Faults) (total_time : Nat) : List Event × Bool :=
  let wr := writeToOutputFile fileOpened faults (junitXmlText site)
  if wr.2 then (wr.1, true)
  else (wr.1 ++ printSummaryEvents site options total_time, false)

/-- The renderer dispatch inside the try block of `report` (lines 62-68):
plain writes to every resolved sink and cannot raise in this model; JSON and
JUnit write their document to the output file only.  Returns the events and
whether the renderer raised. -/
def renderPhase (site : Site) (options : Options) (total_time : Nat)
    (faults : Faults) : List Event × Bool :=
  let sinks := resolveSinks options
  match options.format with
  | .plain => (writePlainTextReport site options sinks total_time, false)
  | .json => writeJsonReport site options options.output.isSome faults total_time
  | .junit => writeJunitReport site options options.output.isSome faults total_time

/-- `a_file.close()`: the close attempt, raising when the fault oracle says
so. -/
def fileCloseOp (faults : Faults) : List Event × Outcome :=
  ([Event.closeFile], if faults.closeFails then .raised else .normal)

/-- `close_quietly` (lines 36-42): closes the file when present and absorbs
any exception. -/
def close_quietly (a_file : Option Unit) (faults : Faults) :
    List Event × Outcome :=
  match a_file with
  | none => ([], .normal)
  | some _ => ((fileCloseOp faults).1, .normal)

/-- A loose model of `MIMEText(...).as_string()` (lines 379-383). -/
def mimeAsString (from_address : String) (addresses : List String)
    (subject body : String) : String :=
  "From: " ++ from_address ++ "\nTo: " ++ String.intercalate ", " addresses ++
  "\nSubject: " ++ subject ++ "\n\n" ++ body

/-- `send_email` (lines 358-397).  The subject default reads
`site.start_url_splits[0]`, raising on an empty start-URL list; an empty
recipient string prints a console message and calls `sys.exit(1)` before
any connection; otherwise the SMTP session runs, raising at the connection
when the transport fault is set. -/
def send_email (body : String) (site : Site) (options : Options)
    (faults : Faults) : List Event × Outcome :=
  let subjectRes : Option String :=
    match options.subject with
    | some s => some s
    | none =>
      match site.start_url_splits with
      | [] => none
      | u :: _ =>
        some ((if site.is_ok then "SUCCESS - " else "ERROR - ") ++ u.geturl)
  match subjectRes with
  | none => ([], .raised)
  | some subject =>
    let from_address := options.from_address.getD "pylinkvalidator@localhost"
    if options.address = "" then
      ([Event.write .console
          "Email address must be specified when using smtp.\n"],
       .exited 1)
    else
      let addresses := options.address.splitOn ","
      let message := mimeAsString from_address addresses subject body
      let host := options.smtp.getD ""
      if faults.smtpFails then
        ([Event.smtpConnect host options.port], .raised)
      else
        ([Event.smtpConnect host options.port] ++
         (if options.tls then [Event.smtpStartTLS] else []) ++
         (match options.smtp_username, options.smtp_password with
          | some u, some _ => [Event.smtpLogin u]
          | _, _ => []) ++
         [Event.smtpSendmail from_address addresses message,
          Event.smtpQuit],
         .normal)

/-- Payloads written to one sink, in order. -/
def sinkWrites (s : Sink) (t : List Event) : List String :=
  t.filterMap (fun e =>
    match e with
    | .write s2 txt => if s2 = s then some txt else none
    | _ => none)

/-- `email_file.getvalue()`: the accumulated email-buffer content. -/
def emailBuffer (t : List Event) : String :=
  String.join (sinkWrites .email t)

/-- `report` (lines 45-77): render inside a broad try/except (logging the
exception when a logger is present), close the output file quietly, then —
whenever SMTP is configured — hand the email buffer to `send_email`.
The `send_email` call sits outside the try/except. -/
def report (site : Site) (options : Options) (total_time : Nat)
    (logger : Bool) (faults : Faults) : List Event × Outcome :=
  let rp := renderPhase site options total_time faults
  let rt := if rp.2 && logger then rp.1 ++ [Event.logException] else rp.1
  let ct :=
    if options.output.isSome then (close_quietly (some ()) faults).1 else []
  if options.smtp.isSome then
    let body := emailBuffer rp.1
    let se := send_email body site options faults
    (rt ++ ct ++ Event.sendEmailCalled body :: se.1, se.2)
  else
    (rt ++ ct, .normal)

/-! ## Trace observations used by the claims -/

/-- Whether an event is the file-close attempt. -/
def isClose : Event → Bool
  | .closeFile => true
  | _ => false

/-- Whether an event belongs to the SMTP session. -/
def isSmtpEvent : Event → Bool
  | .smtpConnect _ _ => true
  | .smtpStartTLS => true
  | .smtpLogin _ => true
  | .smtpSendmail _ _ _ => true
  | .smtpQuit => true
  | _ => false

/-- True when a file-close attempt occurs and no SMTP event precedes it. -/
def closeBeforeMail : List Event → Bool
  | [] => false
  | e :: t =>
    if isClose e then true
    else if isSmtpEvent e then false
    else closeBeforeMail t

/-- Whether an event is an SMTP connection attempt. -/
def isConnectEvent : Event → Bool
  | .smtpConnect _ _ => true
  | _ => false

/-- Whether any SMTP connection attempt occurs in the trace. -/
def hasSmtpConnect (t : List Event) : Bool :=
  t.any isConnectEvent

/-- Events a renderer can emit: sink writes and `print_exc` dumps. -/
def renderEvent : Event → Bool
  | .write _ _ => true
  | .printExc => true
  | _ => false

/-! ## Concrete fixtures used by witnesses and counterexamples -/

/-- A crawled start URL. -/
def splitA : SplitResult :=
  ⟨"http", "example.com", "/", "", "", "example.com", none⟩

/-- A URL whose fetch failed. -/
def splitB : SplitResult :=
  ⟨"http", "example.com", "/missing", "", "", "example.com", none⟩

/-- A page fetched with status 200. -/
def pageOk : Page :=
  { url_split := splitA, status := some 200, response_time := 1,
    process_time := 1, is_local := true, is_html := true, is_ok := true,
    is_timeout := false, exception := none, sources := [],
    status_message := "ok (200)", content_messages := [] }

/-- A page fetched with status 404 and no captured exception, referenced
from the start page. -/
def pageBad : Page :=
  { url_split := splitB, status := some 404, response_time := 1,
    process_time := 1, is_local := true, is_html := false, is_ok := false,
    is_timeout := false, exception := none,
    sources := [⟨splitA, "<a href=x>", "/missing"⟩],
    status_message := "not found (404)", content_messages := [] }

/-- A crawl result with one OK page and one error page. -/
def siteMixed : Site :=
  { start_url_splits := [splitA],
    pages := [(splitA, pageOk), (splitB, pageBad)],
    error_pages := [(splitB, pageBad)],
    multi_pages := [("example.com", [(splitA, pageOk), (splitB, pageBad)])],
    multi_error_pages := [("example.com", [(splitB, pageBad)])],
    is_ok := false, avg_ok := true, avg_response_time := 1,
    avg_process_time := 1 }

/-- A crawl result with one OK page and no errors. -/
def siteClean : Site :=
  { start_url_splits := [splitA],
    pages := [(splitA, pageOk)],
    error_pages := [],
    multi_pages := [("example.com", [(splitA, pageOk)])],
    multi_error_pages := [],
    is_ok := true, avg_ok := true, avg_response_time := 1,
    avg_process_time := 1 }

/-- A baseline configuration: plain format, scope all, nothing configured. -/
def baseOpts : Options :=
  { output := none, smtp := none, console := false, format := .plain,
    report_type := .all, multi := false, show_source := false, address := "",
    port := 25, tls := false, smtp_username := none, smtp_password := none,
    subject := none, from_address := none }

/-- The no-failure oracle. -/
def noFaults : Faults := ⟨false, false, false⟩

/-- The lines printed by the single-site plain renderer, in order. -/
def plainLinesSingle (site : Site) (options : Options) (total_time : Nat) :
    List String :=
  (if site.avg_ok then
     [summaryLine site total_time, avgResponseLine site, avgProcessLine site]
   else []) ++
  (let pages := selectReportPages options.report_type site
   if pages.isEmpty then []
   else
     ("\n  Start URL(s): " ++ startUrlsJoined site) ::
       detailLines options 2 pages)

/-- The lines printed by the multi-site plain renderer, in order. -/
def plainLinesMulti (site : Site) (options : Options) (total_time : Nat) :
    List String :=
  if site.avg_ok then
    [multiSummaryLine site total_time, avgResponseLine site,
     avgProcessLine site] ++
    (selectMultiPages options.report_type site).flatMap (fun dp =>
      if dp.2.isEmpty then []
      else ("\n\n  Start Domain: " ++ dp.1) :: detailLines options 4 dp.2)
  else []

/-- The lines printed by the plain renderer, in order. -/
def plainLines (site : Site) (options : Options) (total_time : Nat) :
    List String :=
  if options.multi then plainLinesMulti site options total_time
  else plainLinesSingle site options total_time

/-- Events that are not writes to the email buffer. -/
def notEmailWrite : Event → Bool
  | .write .email _ => false
  | _ => true

/-- Plain format with only a file sink configured. -/
def optsPlainFile : Options := { baseOpts with output := some "out.txt" }

/-- Plain format with a file sink and console output. -/
def optsPlainBoth : Options :=
  { baseOpts with output := some "out.txt", console := true }

/-- JSON format with only a file sink configured. -/
def optsJsonFile : Options :=
  { baseOpts with output := some "out.txt", format := .json }

/-- JSON format with file, email and console sinks all resolved. -/
def optsJsonMailFile : Options :=
  { baseOpts with
    output := some "o", smtp := some "mail.example.com",
    console := true, format := .json, address := "dev@example.com" }

/-- Mail configured with a valid recipient. -/
def optsMailOk : Options :=
  { baseOpts with
    smtp := some "mail.example.com", address := "dev@example.com" }

/-- Mail configured with an empty recipient string. -/
def optsMailNoAddr : Options := { baseOpts with smtp := some "mail.example.com" }

/-- JSON format with mail configured. -/
def optsJsonMail : Options :=
  { baseOpts with
    smtp := some "mail.example.com", address := "dev@example.com",
    format := .json }

/-- A failing SMTP transport. -/
def smtpFault : Faults := ⟨false, false, true⟩

/-- Failing file writes and failing close. -/
def writeCloseFault : Faults := ⟨true, true, false⟩

/-- Whether the second list starts with the first one. -/
def beginsWith : List Event → List Event → Bool
  | [], _ => true
  | _ :: _, [] => false
  | b :: bs, e :: es => b == e && beginsWith bs es

/-- Whether `block` occurs as a contiguous segment of the trace. -/
def hasBlock (block : List Event) : List Event → Bool
  | [] => block.isEmpty
  | e :: rest => beginsWith block (e :: rest) || hasBlock block rest

/-! ## Trace lemmas -/

theorem beginsWith_append (b t : List Event) :
    beginsWith b (b ++ t) = true := by
  induction b with
  | nil => rfl
  | cons x xs ih => simp [beginsWith, ih]

theorem hasBlock_intro (block t1 t2 : List Event) :
    hasBlock block (t1 ++ (block ++ t2)) = true := by
  induction t1 with
  | nil =>
    simp only [List.nil_append]
    cases hb : block ++ t2 with
    | nil =>
      rcases List.append_eq_nil.mp hb with ⟨h1, _⟩
      subst h1
      rfl
    | cons e rest =>
      have hbw : beginsWith block (block ++ t2) = true :=
        beginsWith_append block t2
      rw [hb] at hbw
      simp [hasBlock, hbw]
  | cons e es ih =>
    simp only [List.cons_append]
    simp [hasBlock, ih]

theorem sinkWrites_append (s : Sink) (a b : List Event) :
    sinkWrites s (a ++ b) = sinkWrites s a ++ sinkWrites s b := by
  simp [sinkWrites, List.filterMap_append]

theorem sinkWrites_flatMap {α : Type} (s : Sink) (l : List α)
    (f : α → List Event) :
    sinkWrites s (l.flatMap f) = l.flatMap (fun x => sinkWrites s (f x)) := by
  induction l with
  | nil => rfl
  | cons x xs ih => simp [List.flatMap_cons, sinkWrites_append, ih]

theorem sinkWrites_oprint (s : Sink) (sinks : List Sink) (l : String)
    (hnd : sinks.Nodup) :
    sinkWrites s (oprintEvents sinks l) =
      if s ∈ sinks then [l ++ "\n"] else [] := by
  induction sinks with
  | nil => simp [oprintEvents, sinkWrites]
  | cons a as ih =>
    rcases List.nodup_cons.mp hnd with ⟨ha, has⟩
    have step : sinkWrites s (oprintEvents (a :: as) l) =
        (if a = s then [l ++ "\n"] else []) ++
          sinkWrites s (oprintEvents as l) := by
      by_cases hsa : a = s <;>
        simp [oprintEvents, sinkWrites, List.filterMap_cons, hsa]
    rw [step, ih has]
    by_cases hsa : a = s
    · subst hsa
      simp [ha, List.mem_cons]
    · have hne : ¬s = a := fun h => hsa h.symm
      by_cases hs : s ∈ as <;> simp [List.mem_cons, hne, hsa, hs]

theorem sinkWrites_fanout (s : Sink) (sinks : List Sink) (lines : List String)
    (hnd : sinks.Nodup) :
    sinkWrites s (fanout sinks lines) =
      if s ∈ sinks then lines.map (fun l => l ++ "\n") else [] := by
  induction lines with
  | nil => by_cases hs : s ∈ sinks <;> simp [fanout, sinkWrites, hs]
  | cons l ls ih =>
    by_cases hs : s ∈ sinks <;>
      simp [fanout, List.flatMap_cons, sinkWrites_append,
        sinkWrites_oprint s sinks l hnd, hs] at ih ⊢ <;>
      simpa [fanout] using ih

theorem resolveSinks_nodup (options : Options) :
    (resolveSinks options).Nodup := by
  cases h1 : options.output.isSome <;> cases h2 : options.smtp.isSome <;>
    cases h3 : options.console <;>
    simp [resolveSinks, h1, h2, h3]

/-! ## Plain-renderer content lemmas -/

theorem sinkWrites_printExc (s : Sink) :
    sinkWrites s [Event.printExc] = [] := rfl

/-- Every sink of the resolved sink list receives exactly the plain
renderer's lines, each with its trailing newline. -/
theorem sinkWrites_plain (s : Sink) (site : Site) (options : Options)
    (sinks : List Sink) (total_time : Nat) (hnd : sinks.Nodup)
    (hs : s ∈ sinks) :
    sinkWrites s (writePlainTextReport site options sinks total_time) =
      (plainLines site options total_time).map (fun l => l ++ "\n") := by
  unfold writePlainTextReport plainLines
  by_cases hm : options.multi
  · simp only [hm, if_true]
    unfold writePlainTextReportMulti plainLinesMulti
    by_cases ha : site.avg_ok
    · simp only [ha, if_true]
      rw [sinkWrites_append, sinkWrites_fanout s sinks _ hnd, if_pos hs,
        sinkWrites_flatMap, List.map_append, List.map_flatMap]
      refine congrArg _ (List.flatMap_congr ?_)
      intro dp _
      by_cases hdp : dp.2.isEmpty
      · simp [hdp, sinkWrites]
      · simp only [hdp, if_false, Bool.false_eq_true]
        rw [sinkWrites_fanout s sinks _ hnd, if_pos hs]
    · simp [ha, sinkWrites]
  · simp only [hm, if_false, Bool.false_eq_true]
    unfold writePlainTextReportSingle plainLinesSingle
    rw [sinkWrites_append, List.map_append]
    congr 1
    · by_cases ha : site.avg_ok
      · simp only [ha, if_true]
        rw [sinkWrites_fanout s sinks _ hnd, if_pos hs]
      · simp [ha, sinkWrites]
    · by_cases hp : (selectReportPages options.report_type site).isEmpty
      · simp [hp, sinkWrites]
      · simp only [hp, if_false, Bool.false_eq_true]
        rw [sinkWrites_fanout s sinks _ hnd, if_pos hs]

/-! ## Benign-event lemmas about the rendering phase -/

theorem renderEvent_fanout (sinks : List Sink) (lines : List String) :
    ∀ e ∈ fanout sinks lines, renderEvent e = true := by
  intro e he
  rcases List.mem_flatMap.mp he with ⟨l, _, hm⟩
  rcases List.mem_map.mp hm with ⟨s, _, rfl⟩
  rfl

theorem renderEvent_printSummary (site : Site) (options : Options)
    (total_time : Nat) :
    ∀ e ∈ printSummaryEvents site options total_time, renderEvent e = true := by
  intro e he
  rcases List.mem_cons.mp he with h | h
  · subst h; rfl
  · rcases List.mem_map.mp h with ⟨l, _, rfl⟩
    rfl

theorem renderEvent_writeToOutputFile (fileOpened : Bool) (faults : Faults)
    (text : String) :
    ∀ e ∈ (writeToOutputFile fileOpened faults text).1, renderEvent e = true := by
  intro e he
  unfold writeToOutputFile at he
  by_cases h1 : fileOpened <;> simp [h1] at he
  by_cases h2 : faults.fileWriteFails <;> simp [h2] at he
  subst he; rfl

theorem renderEvent_plain (site : Site) (options : Options)
    (sinks : List Sink) (total_time : Nat) :
    ∀ e ∈ writePlainTextReport site options sinks total_time,
      renderEvent e = true := by
  intro e he
  unfold writePlainTextReport writePlainTextReportMulti
    writePlainTextReportSingle at he
  by_cases hm : options.multi <;> simp only [hm, if_true, if_false] at he
  · by_cases ha : site.avg_ok <;> simp only [ha, if_true, if_false] at he
    · rcases List.mem_append.mp he with h | h
      · exact renderEvent_fanout _ _ e h
      · rcases List.mem_flatMap.mp h with ⟨dp, _, hdp⟩
        by_cases hemp : dp.2.isEmpty <;> simp [hemp] at hdp
        exact renderEvent_fanout _ _ e hdp
    · simp at he; subst he; rfl
  · rcases List.mem_append.mp he with h | h
    · by_cases ha : site.avg_ok <;> simp only [ha, if_true, if_false] at h
      · exact renderEvent_fanout _ _ e h
      · simp at h; subst h; rfl
    · by_cases hp : (selectReportPages options.report_type site).isEmpty <;>
        simp only [hp, if_true, if_false] at h
      · simp at h
      · exact renderEvent_fanout _ _ e h

theorem renderEvent_renderPhase (site : Site) (options : Options)
    (total_time : Nat) (faults : Faults) :
    ∀ e ∈ (renderPhase site options total_time faults).1,
      renderEvent e = true := by
  intro e he
  unfold renderPhase at he
  cases hf : options.format <;> simp only [hf] at he
  · exact renderEvent_plain _ _ _ _ e he
  · unfold writeJsonReport at he
    by_cases hw : (writeToOutputFile options.output.isSome faults
        (jsonText site options total_time)).2 <;>
      simp only [hw, if_true, if_false] at he
    · rcases List.mem_append.mp he with h | h
      · by_cases ha : site.avg_ok <;> simp [ha] at h
        subst h; rfl
      · exact renderEvent_writeToOutputFile _ _ _ e h
    · rcases List.mem_append.mp he with h | h
      · rcases List.mem_append.mp h with h2 | h2
        · by_cases ha : site.avg_ok <;> simp [ha] at h2
          subst h2; rfl
        · exact renderEvent_writeToOutputFile _ _ _ e h2
      · exact renderEvent_printSummary _ _ _ e h
  · unfold writeJunitReport at he
    by_cases hw : (writeToOutputFile options.output.isSome faults
        (junitXmlText site)).2 <;>
      simp only [hw, if_true, if_false] at he
    · exact renderEvent_writeToOutputFile _ _ _ e he
    · rcases List.mem_append.mp he with h | h
      · exact renderEvent_writeToOutputFile _ _ _ e h
      · exact renderEvent_printSummary _ _ _ e h

theorem renderEvent_not_mail (e : Event) (h : renderEvent e = true) :
    isClose e = false ∧ isSmtpEvent e = false := by
  cases e <;> simp [renderEvent, isClose, isSmtpEvent] at h ⊢

theorem closeBeforeMail_of_benign (t rest : List Event)
    (h : ∀ e ∈ t, isClose e = false ∧ isSmtpEvent e = false) :
    closeBeforeMail (t ++ Event.closeFile :: rest) = true := by
  induction t with
  | nil => simp [closeBeforeMail, isClose]
  | cons e t ih =>
    rcases h e (by simp) with ⟨h1, h2⟩
    simp only [List.cons_append, closeBeforeMail, h1, h2, Bool.false_eq_true,
      if_false]
    exact ih (fun e' he' => h e' (by simp [he']))

/-- Whatever the configuration, the report trace starts with the rendering
trace (plus the logged-exception event when a logger is present and the
renderer raised); closing and mail events only follow it. -/
theorem report_trace_decomp (site : Site) (options : Options)
    (total_time : Nat) (logger : Bool) (faults : Faults) :
    ∃ tail, (report site options total_time logger faults).1 =
      (if (renderPhase site options total_time faults).2 && logger
       then (renderPhase site options total_time faults).1 ++
         [Event.logException]
       else (renderPhase site options total_time faults).1) ++ tail := by
  unfold report
  by_cases hs : options.smtp.isSome <;>
    simp only [hs, Bool.false_eq_true, if_true, if_false]
  · exact ⟨_, by rw [List.append_assoc]⟩
  · exact ⟨_, rfl⟩

theorem notEmailWrite_writeToOutputFile (fileOpened : Bool) (faults : Faults)
    (text : String) :
    ∀ e ∈ (writeToOutputFile fileOpened faults text).1,
      notEmailWrite e = true := by
  intro e he
  unfold writeToOutputFile at he
  by_cases h1 : fileOpened <;> simp [h1] at he
  by_cases h2 : faults.fileWriteFails <;> simp [h2] at he
  subst he; rfl

theorem notEmailWrite_printSummary (site : Site) (options : Options)
    (total_time : Nat) :
    ∀ e ∈ printSummaryEvents site options total_time,
      notEmailWrite e = true := by
  intro e he
  rcases List.mem_cons.mp he with h | h
  · subst h; rfl
  · rcases List.mem_map.mp h with ⟨l, _, rfl⟩
    rfl

theorem sinkWrites_email_nil (t : List Event)
    (h : ∀ e ∈ t, notEmailWrite e = true) :
    sinkWrites .email t = [] := by
  unfold sinkWrites
  rw [List.filterMap_eq_nil_iff]
  intro e he
  have := h e he
  cases e with
  | write s2 txt =>
    cases s2 with
    | email => simp [notEmailWrite] at this
    | file => rfl
    | console => rfl
  | printExc => rfl
  | logException => rfl
  | closeFile => rfl
  | sendEmailCalled _ => rfl
  | smtpConnect _ _ => rfl
  | smtpStartTLS => rfl
  | smtpLogin _ => rfl
  | smtpSendmail _ _ _ => rfl
  | smtpQuit => rfl

/-- The structured-data and test-report renderers never write to the email
buffer: their document write goes to the output file and their summary to
the console. -/
theorem emailBuffer_renderPhase_nonplain (site : Site) (options : Options)
    (total_time : Nat) (faults : Faults)
    (hf : options.format ≠ .plain) :
    emailBuffer (renderPhase site options total_time faults).1 = "" := by
  have hme : ∀ e ∈ (renderPhase site options total_time faults).1,
      notEmailWrite e = true := by
    intro e he
    unfold renderPhase at he
    cases hfm : options.format <;> simp only [hfm] at he
    · exact absurd hfm hf
    · unfold writeJsonReport at he
      by_cases hw : (writeToOutputFile options.output.isSome faults
          (jsonText site options total_time)).2 <;>
        simp only [hw, if_true, if_false] at he
      · rcases List.mem_append.mp he with h | h
        · by_cases ha : site.avg_ok <;> simp [ha] at h
          subst h; rfl
        · exact notEmailWrite_writeToOutputFile _ _ _ e h
      · rcases List.mem_append.mp he with h | h
        · rcases List.mem_append.mp h with h2 | h2
          · by_cases ha : site.avg_ok <;> simp [ha] at h2
            subst h2; rfl
          · exact notEmailWrite_writeToOutputFile _ _ _ e h2
        · exact notEmailWrite_printSummary _ _ _ e h
    · unfold writeJunitReport at he
      by_cases hw : (writeToOutputFile options.output.isSome faults
          (junitXmlText site)).2 <;>
        simp only [hw, if_true, if_false] at he
      · exact notEmailWrite_writeToOutputFile _ _ _ e he
      · rcases List.mem_append.mp he with h | h
        · exact notEmailWrite_writeToOutputFile _ _ _ e h
        · exact notEmailWrite_printSummary _ _ _ e h
  unfold emailBuffer
  rw [sinkWrites_email_nil _ hme]
  rfl

/-- A renderer event is never an SMTP connection attempt. -/
theorem renderEvent_not_connect (e : Event) (h : renderEvent e = true) :
    isConnectEvent e = false := by
  cases e <;> simp [renderEvent, isConnectEvent] at h ⊢

/-! ## Claim C4 (corrected) -/

/-- C4 (amended): for every input string and every size N with N ≥ 3,
`truncate` first normalizes whitespace and then returns a string of length
at most N, replacing the tail with the ellipsis marker exactly when the
normalized string exceeds N characters.  (For N < 3 the bound fails, see
the counterexample.) -/
theorem c4_truncate_normalizes_and_bounds (v : List Char) (N : Nat)
    (h : 3 ≤ N) :
    (truncate v N).length ≤ N ∧
    ((normalizeWs v).length ≤ N → truncate v N = normalizeWs v) ∧
    (N < (normalizeWs v).length →
      truncate v N = (normalizeWs v).take (N - 3) ++ "...".data) := by
  simp only [truncate]
  by_cases hlen : N < (normalizeWs v).length
  · simp only [hlen, if_true]
    have h0 : (0 : Int) ≤ (N : Int) - 3 := by omega
    have ht : ((N : Int) - 3).toNat = N - 3 := by omega
    unfold pySlice
    rw [if_pos h0, ht]
    refine ⟨?_, fun hle => by omega, fun _ => rfl⟩
    have h3 : ("...".data).length = 3 := rfl
    rw [List.length_append, List.length_take, h3]
    omega
  · simp only [hlen, if_false]
    exact ⟨by omega, fun _ => trivial, by simp⟩

/-- C4 witness: the amended theorem evaluated at a concrete string and size. -/
theorem c4_truncate_witness :
    (truncate "hello world".data 4).length ≤ 4 ∧
    ((normalizeWs "hello world".data).length ≤ 4 →
      truncate "hello world".data 4 = normalizeWs "hello world".data) ∧
    (4 < (normalizeWs "hello world".data).length →
      truncate "hello world".data 4 =
        (normalizeWs "hello world".data).take (4 - 3) ++ "...".data) :=
  c4_truncate_normalizes_and_bounds "hello world".data 4 (by decide)

/-- C4 counterexample: at size 2 the output has length 8 > 2, because
`value[:size-3]` slices with a negative bound, so the claimed bound "at
most N characters" fails for sizes below 3. -/
theorem c4_counterexample_small_size :
    2 < (truncate "abcdef".data 2).length := by decide

/-! ## Claim C6 (confirmed) -/

/-- C6: the test-report renderer produces one case per page of the full
page set — its count equals the total page count whatever the scope — while
the structured-data pages array has exactly as many records as the scope
filter selects. -/
theorem c6_case_counts (site : Site) (rt : ReportType) :
    (junitTestCases site).length = site.pages.length ∧
    (jsonResPages rt site).length = (selectReportPages rt site).length := by
  constructor <;> simp [junitTestCases, jsonResPages]

/-! ## Claim C7 (corrected) -/

/-- C7 (amended): every page whose status is not 200 yields a failed test
case whose failure message is the captured exception text when present and
otherwise "Expected 200 OK but got <status>", whose failure category is
"UnexpectedStatusCode", and which carries a standard-ERROR field (not a
standard-output field) listing every origin URL newline-joined after the
"Link found on:" header. -/
theorem c7_amended_failed_case (results : SplitResult) (resource : Page)
    (h : resource.status ≠ some 200) :
    (junitTestCase (results, resource)).status = "failed" ∧
    (junitTestCase (results, resource)).failures =
      [(match resource.exception with
        | some e => e
        | none => "Expected 200 OK but got " ++ statusRepr resource.status,
        "UnexpectedStatusCode")] ∧
    (junitTestCase (results, resource)).stderr =
      some ("Link found on:\n" ++ String.intercalate "\n"
        (resource.sources.map (fun s => s.origin.geturl))) ∧
    (junitTestCase (results, resource)).stdout = none := by
  unfold junitTestCase
  simp [h]

/-- C7 witness: the amended theorem evaluated at a concrete failed page. -/
theorem c7_failed_case_witness :
    (junitTestCase (splitB, pageBad)).status = "failed" ∧
    (junitTestCase (splitB, pageBad)).failures =
      [(match pageBad.exception with
        | some e => e
        | none => "Expected 200 OK but got " ++ statusRepr pageBad.status,
        "UnexpectedStatusCode")] ∧
    (junitTestCase (splitB, pageBad)).stderr =
      some ("Link found on:\n" ++ String.intercalate "\n"
        (pageBad.sources.map (fun s => s.origin.geturl))) ∧
    (junitTestCase (splitB, pageBad)).stdout = none :=
  c7_amended_failed_case splitB pageBad (by decide)

/-- C7 counterexample: for a concrete failed page the diagnostic origin
listing sits in the standard-error field and the standard-output field is
empty, contradicting the claimed standard-output placement. -/
theorem c7_counterexample_stderr_not_stdout :
    (junitTestCase (splitB, pageBad)).stdout = none ∧
    (junitTestCase (splitB, pageBad)).stderr =
      some "Link found on:\nhttp://example.com/" := by decide

/-! ## Claim C8 (confirmed) -/

/-- C8: under the CrawlResult invariant that the success flag is true iff
the error-page count is zero, the global status label (used by all four
renderers through `statusSummary`, e.g. in the structured-data meta block)
is "SUCCESS" iff the error count is zero, and the error clause is empty iff
the error count is zero. -/
theorem c8_global_status_iff (site : Site) (total_time : Nat)
    (hinv : site.is_ok = true ↔ site.error_pages.length = 0) :
    (((statusSummary site).1 = "SUCCESS") ↔ site.error_pages.length = 0) ∧
    (((statusSummary site).2 = "") ↔ site.error_pages.length = 0) ∧
    (jsonMeta site total_time).global_status = (statusSummary site).1 ∧
    (jsonMeta site total_time).error_summary = (statusSummary site).2 := by
  refine ⟨?_, ?_, rfl, rfl⟩
  · cases hok : site.is_ok
    · have hne : site.error_pages.length ≠ 0 := fun h0 => by
        have h1 := hinv.mpr h0
        rw [hok] at h1
        exact Bool.noConfusion h1
      simp only [statusSummary, hok, Bool.not_false, if_true]
      constructor
      · intro h; exact absurd h (by decide)
      · intro h; exact absurd h hne
    · have h0 := hinv.mp hok
      simp [statusSummary, hok, h0]
  · cases hok : site.is_ok
    · have hne : site.error_pages.length ≠ 0 := fun h0 => by
        have h1 := hinv.mpr h0
        rw [hok] at h1
        exact Bool.noConfusion h1
      simp only [statusSummary, hok, Bool.not_false, if_true]
      constructor
      · intro h
        have hlen := congrArg String.length h
        rw [String.length_append, String.length_append] at hlen
        have h5 : ("with ").length = 5 := rfl
        have h10 : (" error(s) ").length = 10 := rfl
        have hz : ("" : String).length = 0 := rfl
        omega
      · intro h; exact absurd h hne
    · have h0 := hinv.mp hok
      simp [statusSummary, hok, h0]

/-- C8 witness: the theorem evaluated at a concrete error-free crawl. -/
theorem c8_global_status_witness :
    (((statusSummary siteClean).1 = "SUCCESS") ↔
      siteClean.error_pages.length = 0) ∧
    (((statusSummary siteClean).2 = "") ↔ siteClean.error_pages.length = 0) ∧
    (jsonMeta siteClean 5).global_status = (statusSummary siteClean).1 ∧
    (jsonMeta siteClean 5).error_summary = (statusSummary siteClean).2 :=
  c8_global_status_iff siteClean 5 (by decide)

/-! ## More shared lemmas for the orchestration claims -/

/-- Every event of the rendering part of the report trace (renderer output
plus the optional logged exception) is neither a close nor an SMTP event. -/
theorem rt_events_benign (site : Site) (options : Options) (total_time : Nat)
    (logger : Bool) (faults : Faults) :
    ∀ e ∈ (if (renderPhase site options total_time faults).2 && logger
        then (renderPhase site options total_time faults).1 ++
          [Event.logException]
        else (renderPhase site options total_time faults).1),
      isClose e = false ∧ isSmtpEvent e = false := by
  intro e he
  by_cases hlog : ((renderPhase site options total_time faults).2 && logger) =
      true
  · rw [if_pos hlog] at he
    rcases List.mem_append.mp he with h | h
    · exact renderEvent_not_mail e
        (renderEvent_renderPhase site options total_time faults e h)
    · simp at h
      subst h
      exact ⟨rfl, rfl⟩
  · rw [if_neg hlog] at he
    exact renderEvent_not_mail e
      (renderEvent_renderPhase site options total_time faults e he)

/-- An event that is not an SMTP event is not a connection attempt. -/
theorem isConnectEvent_of_not_smtp (e : Event) (h : isSmtpEvent e = false) :
    isConnectEvent e = false := by
  cases e <;> simp [isSmtpEvent, isConnectEvent] at h ⊢

/-! ## Claim C2 (corrected) -/

/-- C2 (amended): only under the plain format does the selected renderer
write to every resolved sink; it writes line by line, each line to every
sink in sink order, so all resolved sinks receive identical content.  The
structured-data and test-report renderers instead write only to the file
sink (see the counterexample). -/
theorem c2_amended_plain_sinks_identical (site : Site) (options : Options)
    (total_time : Nat) (faults : Faults) (s1 s2 : Sink)
    (hfmt : options.format = .plain)
    (h1 : s1 ∈ resolveSinks options) (h2 : s2 ∈ resolveSinks options) :
    sinkWrites s1 (renderPhase site options total_time faults).1 =
      sinkWrites s2 (renderPhase site options total_time faults).1 := by
  have hn := resolveSinks_nodup options
  simp only [renderPhase, hfmt]
  rw [sinkWrites_plain s1 site options _ total_time hn h1,
    sinkWrites_plain s2 site options _ total_time hn h2]

/-- C2 witness: with the plain format and both a file and the console
resolved, both sinks receive identical content. -/
theorem c2_plain_sinks_witness :
    sinkWrites Sink.file (renderPhase siteMixed optsPlainBoth 5 noFaults).1 =
      sinkWrites Sink.console
        (renderPhase siteMixed optsPlainBoth 5 noFaults).1 :=
  c2_amended_plain_sinks_identical siteMixed optsPlainBoth 5 noFaults
    Sink.file Sink.console rfl (by decide) (by decide)

/-- C2 counterexample: under the JSON format with file, email and console
all resolved, the email buffer receives nothing while the file receives the
document, so the resolved sinks do not receive identical content. -/
theorem c2_counterexample_json_sinks_differ :
    Sink.email ∈ resolveSinks optsJsonMailFile ∧
    sinkWrites Sink.email
      (renderPhase siteMixed optsJsonMailFile 5 noFaults).1 = [] ∧
    sinkWrites Sink.file
      (renderPhase siteMixed optsJsonMailFile 5 noFaults).1 ≠ [] := by
  decide

/-! ## Claim C10 (confirmed) -/

/-- C10: whenever SMTP is configured, the report entry point invokes the
mail dispatch with the in-memory email buffer — whatever the renderer did —
and for the non-plain formats that buffer is empty, so an email with an
empty body may be sent. -/
theorem c10_mail_always_dispatched (site : Site) (options : Options)
    (total_time : Nat) (logger : Bool) (faults : Faults)
    (hs : options.smtp.isSome = true) :
    Event.sendEmailCalled
        (emailBuffer (renderPhase site options total_time faults).1) ∈
      (report site options total_time logger faults).1 ∧
    (options.format ≠ .plain →
      emailBuffer (renderPhase site options total_time faults).1 = "") := by
  constructor
  · simp only [report, hs, if_true]
    simp [List.mem_append]
  · intro hf
    exact emailBuffer_renderPhase_nonplain site options total_time faults hf

/-- C10 witness: with mail configured under the JSON format, the dispatch is
invoked with an empty body. -/
theorem c10_mail_dispatch_witness :
    Event.sendEmailCalled
        (emailBuffer (renderPhase siteMixed optsJsonMail 5 noFaults).1) ∈
      (report siteMixed optsJsonMail 5 false noFaults).1 ∧
    (optsJsonMail.format ≠ .plain →
      emailBuffer (renderPhase siteMixed optsJsonMail 5 noFaults).1 = "") :=
  c10_mail_always_dispatched siteMixed optsJsonMail 5 false noFaults rfl

/-! ## Claim C1 (corrected) -/

/-- C1 (amended): the final console summary is printed only by the
structured-data and test-report renderers, after their document write to the
configured output file succeeds; it then appears as a contiguous block of
the report trace.  The plain format never prints it, and a renderer
exception prevents it (see the counterexample). -/
theorem c1_amended_summary_conditions (site : Site) (options : Options)
    (total_time : Nat) (logger : Bool) (faults : Faults)
    (hfmt : options.format = .json ∨ options.format = .junit)
    (hout : options.output.isSome = true)
    (hw : faults.fileWriteFails = false) :
    hasBlock (printSummaryEvents site options total_time)
      (report site options total_time logger faults).1 = true := by
  obtain ⟨tail, htail⟩ :=
    report_trace_decomp site options total_time logger faults
  rcases hfmt with hf | hf
  · have hrp : renderPhase site options total_time faults =
        ((if site.avg_ok then [] else [Event.printExc]) ++
          [Event.write .file (jsonText site options total_time)] ++
          printSummaryEvents site options total_time, false) := by
      simp [renderPhase, hf, writeJsonReport, writeToOutputFile, hout, hw]
    rw [hrp] at htail
    simp only [Bool.false_and, Bool.false_eq_true, if_false] at htail
    rw [htail, List.append_assoc]
    exact hasBlock_intro _ _ _
  · have hrp : renderPhase site options total_time faults =
        ([Event.write .file (junitXmlText site)] ++
          printSummaryEvents site options total_time, false) := by
      simp [renderPhase, hf, writeJunitReport, writeToOutputFile, hout, hw]
    rw [hrp] at htail
    simp only [Bool.false_and, Bool.false_eq_true, if_false] at htail
    rw [htail, List.append_assoc]
    exact hasBlock_intro _ _ _

/-- C1 witness: under the JSON format with an output file and no faults,
the console summary block occurs in the report trace. -/
theorem c1_summary_witness :
    hasBlock (printSummaryEvents siteMixed optsJsonFile 5)
      (report siteMixed optsJsonFile 5 false noFaults).1 = true :=
  c1_amended_summary_conditions siteMixed optsJsonFile 5 false noFaults
    (Or.inl rfl) rfl rfl

/-- C1 counterexample: with the plain format and only a file sink resolved,
the report entry point prints nothing at all to the console — in particular
not the (nonempty) final console summary — refuting "regardless of which
output format is configured". -/
theorem c1_counterexample_plain_no_summary :
    sinkWrites Sink.console
      (report siteMixed optsPlainFile 5 false noFaults).1 = [] ∧
    printSummaryEvents siteMixed optsPlainFile 5 ≠ [] := by
  decide

/-! ## Claim C3 (corrected) -/

/-- C3 (amended): an exception raised by the mail transport after the
recipient check passes propagates OUT of the report entry point: the
orchestrator's broad catch covers only the rendering phase, so the
transport error escapes `report` uncaught (and unlogged). -/
theorem c3_amended_transport_error_escapes (site : Site) (options : Options)
    (total_time : Nat) (logger : Bool) (faults : Faults)
    (hs : options.smtp.isSome = true)
    (haddr : options.address ≠ "")
    (hsubj : options.subject.isSome = true ∨ site.start_url_splits ≠ [])
    (hfail : faults.smtpFails = true) :
    (report site options total_time logger faults).2 = Outcome.raised := by
  simp only [report, hs, if_true]
  unfold send_email
  cases hsubj2 : options.subject with
  | some s => simp [haddr, hfail]
  | none =>
    rcases hsubj with hsub | hstart
    · rw [hsubj2] at hsub
      exact Bool.noConfusion hsub
    · cases hurl : site.start_url_splits with
      | nil => exact absurd hurl hstart
      | cons u rest => simp [hurl, haddr, hfail]

/-- C3 witness: the amended theorem at a concrete failing transport. -/
theorem c3_transport_witness :
    (report siteMixed optsMailOk 5 true smtpFault).2 = Outcome.raised :=
  c3_amended_transport_error_escapes siteMixed optsMailOk 5 true smtpFault
    rfl (by decide) (Or.inr (by decide)) rfl

/-- C3 counterexample: with mail configured, a valid recipient and a failing
transport, the exception escapes the report entry point and is never
logged although a logger is present — contradicting "propagates only as far
as the Report Orchestrator's broad exception catch, where it is logged". -/
theorem c3_counterexample_not_caught :
    (report siteMixed optsMailOk 5 true smtpFault).2 = Outcome.raised ∧
    Event.logException ∉ (report siteMixed optsMailOk 5 true smtpFault).1 := by
  decide

/-! ## Claim C5 (confirmed) -/

/-- C5: when mail is configured and the recipient string is empty, the
process terminates with exit status 1 after printing a console message, and
no SMTP connection is attempted before termination.  (The start-URL list is
assumed nonempty, as any crawl result has at least one start URL; otherwise
the default-subject computation would raise first.) -/
theorem c5_missing_recipient_exits (site : Site) (options : Options)
    (total_time : Nat) (logger : Bool) (faults : Faults)
    (hs : options.smtp.isSome = true)
    (haddr : options.address = "")
    (hstart : site.start_url_splits ≠ []) :
    (report site options total_time logger faults).2 = Outcome.exited 1 ∧
    Event.write .console
        "Email address must be specified when using smtp.\n" ∈
      (report site options total_time logger faults).1 ∧
    hasSmtpConnect (report site options total_time logger faults).1 =
      false := by
  have hse : ∀ body, send_email body site options faults =
      ([Event.write .console
          "Email address must be specified when using smtp.\n"],
       Outcome.exited 1) := by
    intro body
    unfold send_email
    cases hsubj : options.subject with
    | some s => simp [haddr]
    | none =>
      cases hurl : site.start_url_splits with
      | nil => exact absurd hurl hstart
      | cons u rest => simp [hurl, haddr]
  simp only [report, hs, if_true, hse]
  refine ⟨trivial, by simp, ?_⟩
  unfold hasSmtpConnect
  rw [List.any_eq_false]
  intro e he
  simp only [List.mem_append, List.mem_cons] at he
  rcases he with (h | h) | h | h
  · exact Bool.not_eq_true _ ▸ isConnectEvent_of_not_smtp e
      (rt_events_benign site options total_time logger faults e h).2
  · by_cases ho : options.output.isSome = true <;> simp [ho] at h
    · rw [show (close_quietly (some ()) faults).1 = [Event.closeFile]
          from rfl] at h
      simp at h
      subst h
      simp [isConnectEvent]
  · subst h
    simp [isConnectEvent]
  · simp at h
    subst h
    simp [isConnectEvent]

/-- C5 witness: the theorem at a concrete configuration with mail set up
and an empty recipient string. -/
theorem c5_missing_recipient_witness :
    (report siteMixed optsMailNoAddr 5 false noFaults).2 =
      Outcome.exited 1 ∧
    Event.write .console
        "Email address must be specified when using smtp.\n" ∈
      (report siteMixed optsMailNoAddr 5 false noFaults).1 ∧
    hasSmtpConnect (report siteMixed optsMailNoAddr 5 false noFaults).1 =
      false :=
  c5_missing_recipient_exits siteMixed optsMailNoAddr 5 false noFaults
    rfl rfl (by decide)

/-! ## Claim C9 (confirmed) -/

/-- C9: on every execution path of the report entry point — including a
raising renderer — the opened output file is closed before any mail
activity or return, and the close operation (`close_quietly`) itself never
raises, for a missing file or a failing close alike. -/
theorem c9_file_closed_on_all_paths (site : Site) (options : Options)
    (total_time : Nat) (logger : Bool) (faults : Faults)
    (a_file : Option Unit)
    (hout : options.output.isSome = true) :
    closeBeforeMail (report site options total_time logger faults).1 =
      true ∧
    (close_quietly a_file faults).2 = Outcome.normal := by
  constructor
  · have hct : (close_quietly (some ()) faults).1 = [Event.closeFile] := rfl
    simp only [report, hout, if_true, hct]
    by_cases hsm : options.smtp.isSome = true
    · simp only [hsm, if_true]
      rw [List.append_assoc]
      exact closeBeforeMail_of_benign _ _
        (rt_events_benign site options total_time logger faults)
    · simp only [hsm, Bool.false_eq_true, if_false]
      exact closeBeforeMail_of_benign _ _
        (rt_events_benign site options total_time logger faults)
  · cases a_file <;> rfl

/-- C9 witness: the theorem at a configuration whose renderer raises (file
writes fail) and whose close also fails. -/
theorem c9_file_closed_witness :
    closeBeforeMail (report siteMixed optsJsonFile 5 true writeCloseFault).1 =
      true ∧
    (close_quietly (some ()) writeCloseFault).2 = Outcome.normal :=
  c9_file_closed_on_all_paths siteMixed optsJsonFile 5 true writeCloseFault
    (some ()) rfl

end PyLink
